import Mathlib

/-!
Shallow embedding of the task-management core of this repository:
the five stored procedures `spTaskCreate`, `spTaskGet`, `spTaskList`,
`spTaskUpdate`, `spTaskDelete` (T-SQL, `src/backend/database/functional/task/`)
and the thin HTTP controller layer that calls them
(`postHandler`, `getHandler`, `putHandler`, `deleteHandler`).

Modelling conventions:
- `NVARCHAR` values are Lean `String`s; `LEN` is `String.length` and
  `LTRIM`/`RTRIM` strip leading/trailing space characters, as in the source.
- `DATE` values are `Nat` day numbers; `DATETIME2` values are `Nat`
  second timestamps; `CAST(GETUTCDATE() AS DATE)` is `utcDate now`.
- `INTEGER` parameters that the procedures range-check (`priority`,
  `status`) are `Int`, so out-of-range inputs are representable.
- A `THROW` is an `Except.error`; a procedure that commits returns the
  updated database inside `Except.ok`, so an error never mutates state.
- The `[subscription].[account]` and `[security].[user]` tables are the
  lists `DB.accounts` and `DB.users` (a user row is `(idUser, idAccount)`).
- `IDENTITY(1,1)` id assignment is `DB.nextId`.
-/

namespace TaskMgmt

/-- `CAST(GETUTCDATE() AS DATE)`: the UTC calendar date of a timestamp. -/
def utcDate (now : Nat) : Nat := now / 86400

/-- T-SQL `LTRIM`: strip leading spaces. -/
def ltrimStr (s : String) : String := ⟨s.data.dropWhile (· == ' ')⟩

/-- T-SQL `RTRIM`: strip trailing spaces. -/
def rtrimStr (s : String) : String := ⟨(s.data.reverse.dropWhile (· == ' ')).reverse⟩

/-- `LTRIM(RTRIM(s))`. -/
def trimStr (s : String) : String := ltrimStr (rtrimStr s)

/-- One row of `[functional].[task]` (`_structure.sql`). -/
structure Task where
  idTask : Nat
  idAccount : Nat
  idUser : Nat
  title : String
  description : Option String
  dueDate : Option Nat
  priority : Int
  status : Int
  dateCreated : Nat
  dateModified : Nat
  deleted : Bool
deriving DecidableEq, Repr

/-- Database state visible to the procedures. -/
structure DB where
  accounts : List Nat
  users : List (Nat × Nat)
  tasks : List Task
  nextId : Nat
deriving DecidableEq, Repr

/-- The error codes thrown with `THROW 51000, '<code>', 1` by the procedures. -/
inductive SqlError where
  | titleRequired
  | titleTooShort
  | titleTooLong
  | descriptionTooLong
  | dueDateInPast
  | invalidPriority
  | invalidStatus
  | accountDoesntExist
  | userDoesntExist
  | taskDoesntExist
deriving DecidableEq, Repr

instance {ε α : Type} [DecidableEq ε] [DecidableEq α] : DecidableEq (Except ε α)
  | .error a, .error b =>
    if h : a = b then .isTrue (by rw [h]) else .isFalse (fun c => h (Except.error.inj c))
  | .error _, .ok _ => .isFalse (fun c => Except.noConfusion c)
  | .ok _, .error _ => .isFalse (fun c => Except.noConfusion c)
  | .ok a, .ok b =>
    if h : a = b then .isTrue (by rw [h]) else .isFalse (fun c => h (Except.ok.inj c))

/-- `EXISTS (SELECT * FROM [subscription].[account] WHERE idAccount = @idAccount)`. -/
def accountExists (db : DB) (idAccount : Nat) : Bool :=
  db.accounts.contains idAccount

/-- `EXISTS (SELECT * FROM [security].[user] WHERE idUser = @idUser AND idAccount = @idAccount)`. -/
def userExists (db : DB) (idAccount idUser : Nat) : Bool :=
  db.users.contains (idUser, idAccount)

/-- The row condition `idTask = @idTask AND idAccount = @idAccount AND idUser = @idUser AND deleted = 0`
shared by `spTaskGet`, `spTaskUpdate` and `spTaskDelete`. -/
def taskMatch (idAccount idUser idTask : Nat) (t : Task) : Bool :=
  t.idTask == idTask && t.idAccount == idAccount && t.idUser == idUser && t.deleted == false

/-- `EXISTS (SELECT * FROM [functional].[task] WHERE <taskMatch>)`. -/
def taskExists (db : DB) (idAccount idUser idTask : Nat) : Bool :=
  db.tasks.any (taskMatch idAccount idUser idTask)

/-- `@description IS NOT NULL AND LEN(@description) > 1000`. -/
def isDescTooLong (description : Option String) : Bool :=
  match description with
  | some d => d.length > 1000
  | none => false

/-- `@dueDate IS NOT NULL AND @dueDate < CAST(GETUTCDATE() AS DATE)`. -/
def isPastDue (dueDate : Option Nat) (today : Nat) : Bool :=
  match dueDate with
  | some d => d < today
  | none => false

/-- The validation chain of `spTaskCreate` (lines 62-110): each failing `IF`
throws immediately, so the first failing check wins. -/
def validateCreateInput (title : String) (description : Option String)
    (dueDate : Option Nat) (priority : Int) (today : Nat) : Option SqlError :=
  if trimStr title = "" then some .titleRequired
  else if (trimStr title).length < 3 then some .titleTooShort
  else if title.length > 100 then some .titleTooLong
  else if isDescTooLong description then some .descriptionTooLong
  else if isPastDue dueDate today then some .dueDateInPast
  else if priority < 0 ∨ 2 < priority then some .invalidPriority
  else none

/-- The validation chain of `spTaskUpdate` (lines 250-307): the same checks as
`spTaskCreate` followed by the status range check. -/
def validateUpdateInput (title : String) (description : Option String)
    (dueDate : Option Nat) (priority status : Int) (today : Nat) : Option SqlError :=
  if trimStr title = "" then some .titleRequired
  else if (trimStr title).length < 3 then some .titleTooShort
  else if title.length > 100 then some .titleTooLong
  else if isDescTooLong description then some .descriptionTooLong
  else if isPastDue dueDate today then some .dueDateInPast
  else if priority < 0 ∨ 2 < priority then some .invalidPriority
  else if status < 0 ∨ 2 < status then some .invalidStatus
  else none

/-- The row inserted by `spTaskCreate` (its `VALUES` list): trimmed title,
`status = 0`, `deleted = 0`, both audit timestamps the same `GETUTCDATE()`
value, id from `IDENTITY`. -/
def newTaskRow (db : DB) (now : Nat) (idAccount idUser : Nat) (title : String)
    (description : Option String) (dueDate : Option Nat) (priority : Int) : Task :=
  { idTask := db.nextId
    idAccount := idAccount
    idUser := idUser
    title := trimStr title
    description := description
    dueDate := dueDate
    priority := priority
    status := 0
    dateCreated := now
    dateModified := now
    deleted := false }

/-- `[functional].[spTaskCreate]`: validation, tenancy guard, then `INSERT`
of `newTaskRow`, returning `SCOPE_IDENTITY()`. -/
def spTaskCreate (db : DB) (now : Nat) (idAccount idUser : Nat) (title : String)
    (description : Option String) (dueDate : Option Nat) (priority : Int) :
    Except SqlError (Nat × DB) :=
  match validateCreateInput title description dueDate priority (utcDate now) with
  | some e => .error e
  | none =>
    if accountExists db idAccount = false then .error .accountDoesntExist
    else if userExists db idAccount idUser = false then .error .userDoesntExist
    else
      .ok (db.nextId,
        { db with
          tasks := db.tasks ++ [newTaskRow db now idAccount idUser title description dueDate priority]
          nextId := db.nextId + 1 })

/-- `[functional].[spTaskGet]`: tenancy guard, task existence check, then
`SELECT` of the matching row (the primary key makes it unique). -/
def spTaskGet (db : DB) (idAccount idUser idTask : Nat) : Except SqlError Task :=
  if accountExists db idAccount = false then .error .accountDoesntExist
  else if userExists db idAccount idUser = false then .error .userDoesntExist
  else
    match db.tasks.find? (taskMatch idAccount idUser idTask) with
    | some t => .ok t
    | none => .error .taskDoesntExist

/-- The `WHERE` clause of `spTaskList`: rows of the pair with `deleted = 0`,
plus `(@status IS NULL OR status = @status)` and the same for priority. -/
def listWhere (idAccount idUser : Nat) (status priority : Option Int) (t : Task) : Bool :=
  t.idAccount == idAccount && t.idUser == idUser && t.deleted == false &&
    (match status with
     | none => true
     | some s => t.status == s) &&
    (match priority with
     | none => true
     | some p => t.priority == p)

/-- Strict comparison of `DATE` columns under `ORDER BY dueDate ASC`:
T-SQL sorts `NULL` as the lowest value, so a `NULL` due date comes first. -/
def dueBefore : Option Nat → Option Nat → Bool
  | none, none => false
  | none, some _ => true
  | some _, none => false
  | some d, some e => d < e

/-- The row order of `ORDER BY priority DESC, dueDate ASC, dateCreated DESC`
(`spTaskList` lines 90-93), with `NULL` due dates lowest as T-SQL sorts them. -/
def taskLE (a b : Task) : Prop :=
  b.priority < a.priority ∨
    (a.priority = b.priority ∧
      (dueBefore a.dueDate b.dueDate = true ∨
        (a.dueDate = b.dueDate ∧ b.dateCreated ≤ a.dateCreated)))

instance : DecidableRel taskLE := fun a b => by
  unfold taskLE
  infer_instance

/-- `[functional].[spTaskList]`: tenancy guard, then the filtered rows sorted
by the `ORDER BY` relation. -/
def spTaskList (db : DB) (idAccount idUser : Nat) (status priority : Option Int) :
    Except SqlError (List Task) :=
  if accountExists db idAccount = false then .error .accountDoesntExist
  else if userExists db idAccount idUser = false then .error .userDoesntExist
  else .ok (List.insertionSort taskLE (db.tasks.filter (listWhere idAccount idUser status priority)))

/-- The `SET` clause of `spTaskUpdate` (lines 330-341): replace the mutable
columns and refresh `dateModified`, keeping every other column. -/
def applyUpdate (now : Nat) (title : String) (description : Option String)
    (dueDate : Option Nat) (priority status : Int) (t : Task) : Task :=
  { t with
    title := trimStr title
    description := description
    dueDate := dueDate
    priority := priority
    status := status
    dateModified := now }

/-- `[functional].[spTaskUpdate]`: validation (including status), task
existence check — no account or user existence check — then `UPDATE` of the
matching row, returning `@idTask`. -/
def spTaskUpdate (db : DB) (now : Nat) (idAccount idUser idTask : Nat) (title : String)
    (description : Option String) (dueDate : Option Nat) (priority status : Int) :
    Except SqlError (Nat × DB) :=
  match validateUpdateInput title description dueDate priority status (utcDate now) with
  | some e => .error e
  | none =>
    if taskExists db idAccount idUser idTask = false then .error .taskDoesntExist
    else
      .ok (idTask,
        { db with
          tasks := db.tasks.map fun t =>
            if taskMatch idAccount idUser idTask t then
              applyUpdate now title description dueDate priority status t
            else t })

/-- The state after `spTaskDelete`'s `UPDATE`: the soft delete
`SET deleted = 1, dateModified = GETUTCDATE()` on the matching row. -/
def markDeleted (db : DB) (now : Nat) (idAccount idUser idTask : Nat) : DB :=
  { db with
    tasks := db.tasks.map fun t =>
      if taskMatch idAccount idUser idTask t then
        { t with deleted := true, dateModified := now }
      else t }

/-- `[functional].[spTaskDelete]`: tenancy guard, task existence check, then
the soft delete `UPDATE`, returning `@idTask`. -/
def spTaskDelete (db : DB) (now : Nat) (idAccount idUser idTask : Nat) :
    Except SqlError (Nat × DB) :=
  if accountExists db idAccount = false then .error .accountDoesntExist
  else if userExists db idAccount idUser = false then .error .userDoesntExist
  else if taskExists db idAccount idUser idTask = false then .error .taskDoesntExist
  else .ok (idTask, markDeleted db now idAccount idUser idTask)

/-- The JavaScript coercion `value || null` applied by the controllers to the
optional integer query filters: `0` is falsy, so it becomes `null`. -/
def jsFalsyIntToNull : Option Int → Option Int
  | some v => if v = 0 then none else some v
  | none => none

/-- The JavaScript coercion `value || null` applied by the controllers to the
optional string fields: the empty string is falsy, so it becomes `null`. -/
def jsFalsyStrToNull : Option String → Option String
  | some s => if s = "" then none else some s
  | none => none

/-- The list controller `getHandler`: it forwards the credential pair and the
query filters, passing `status: validated.params.status || null` and
`priority: validated.params.priority || null` to `taskList`, which executes
`spTaskList`. -/
def listTasksEndpoint (db : DB) (cred : Nat × Nat) (status priority : Option Int) :
    Except SqlError (List Task) :=
  spTaskList db cred.1 cred.2 (jsFalsyIntToNull status) (jsFalsyIntToNull priority)

/-- The create controller `postHandler`: it forwards the credential pair and
the body, passing `description: validated.params.description || null` (and the
like for `dueDate`, which on the already-parsed optional date is the identity
because an empty string never parses as a datetime) to `taskCreate`, which
executes `spTaskCreate`. -/
def createTaskEndpoint (db : DB) (now : Nat) (cred : Nat × Nat) (title : String)
    (description : Option String) (dueDate : Option Nat) (priority : Int) :
    Except SqlError (Nat × DB) :=
  spTaskCreate db now cred.1 cred.2 title (jsFalsyStrToNull description) dueDate priority

/-- The update controller `putHandler`: it forwards the credential pair, the
task id and the body, passing `description: validated.params.description || null`
(and the like for `dueDate`, the identity on the already-parsed optional date)
to `taskUpdate`, which executes `spTaskUpdate`. -/
def updateTaskEndpoint (db : DB) (now : Nat) (cred : Nat × Nat) (idTask : Nat)
    (title : String) (description : Option String) (dueDate : Option Nat)
    (priority status : Int) : Except SqlError (Nat × DB) :=
  spTaskUpdate db now cred.1 cred.2 idTask title (jsFalsyStrToNull description) dueDate
    priority status

/-! Helper lemmas about the `ORDER BY` relation and the row predicates. -/

set_option linter.unnecessarySeqFocus false in
lemma dueBefore_trans {x y z : Option Nat} (hxy : dueBefore x y = true)
    (hyz : dueBefore y z = true) : dueBefore x z = true := by
  cases x <;> cases y <;> cases z <;> simp [dueBefore] at * <;> try omega

lemma taskLE_total (a b : Task) : taskLE a b ∨ taskLE b a := by
  unfold taskLE
  rcases lt_trichotomy a.priority b.priority with h | h | h
  · right; left; exact h
  · rcases ha : a.dueDate with _ | d <;> rcases hb : b.dueDate with _ | e
    · rcases Nat.le_total a.dateCreated b.dateCreated with hd | hd
      · right; right; exact ⟨h.symm, Or.inr ⟨by simp [ha, hb], hd⟩⟩
      · left; right; exact ⟨h, Or.inr ⟨by simp [ha, hb], hd⟩⟩
    · left; right; exact ⟨h, Or.inl (by simp [dueBefore])⟩
    · right; right; exact ⟨h.symm, Or.inl (by simp [dueBefore])⟩
    · rcases lt_trichotomy d e with hde | hde | hde
      · left; right; exact ⟨h, Or.inl (by simp [dueBefore, hde])⟩
      · subst hde
        rcases Nat.le_total a.dateCreated b.dateCreated with hd | hd
        · right; right; exact ⟨h.symm, Or.inr ⟨by simp [ha, hb], hd⟩⟩
        · left; right; exact ⟨h, Or.inr ⟨by simp [ha, hb], hd⟩⟩
      · right; right; exact ⟨h.symm, Or.inl (by simp [dueBefore, hde])⟩
  · left; left; exact h

lemma taskLE_trans (a b c : Task) (hab : taskLE a b) (hbc : taskLE b c) : taskLE a c := by
  unfold taskLE at *
  rcases hab with hab | ⟨hpab, hab⟩
  · rcases hbc with hbc | ⟨hpbc, hbc⟩
    · left; omega
    · left; omega
  · rcases hbc with hbc | ⟨hpbc, hbc⟩
    · left; omega
    · right
      refine ⟨by omega, ?_⟩
      rcases hab with hab | ⟨hdab, hcab⟩
      · rcases hbc with hbc | ⟨hdbc, hcbc⟩
        · exact Or.inl (dueBefore_trans hab hbc)
        · exact Or.inl (hdbc ▸ hab)
      · rcases hbc with hbc | ⟨hdbc, hcbc⟩
        · exact Or.inl (hdab ▸ hbc)
        · exact Or.inr ⟨hdab.trans hdbc, hcbc.trans hcab⟩

instance : IsTotal Task taskLE := ⟨taskLE_total⟩

instance : IsTrans Task taskLE := ⟨taskLE_trans⟩

/-- Strict due-date comparison as the specification words it for List results:
"due date ascending (nulls last)" — a `NULL` due date sorts after every dated
row. Written from the spec text, to be compared with `dueBefore`. -/
def dueBeforeSpec : Option Nat → Option Nat → Bool
  | none, none => false
  | none, some _ => false
  | some _, none => true
  | some d, some e => d < e

/-- The List result ordering asserted by the specification: priority
descending, then due date ascending with null due dates after all dated rows,
then creation time descending. Written from the spec text, to be compared
with `taskLE`. -/
def specClaimedListLE (a b : Task) : Prop :=
  b.priority < a.priority ∨
    (a.priority = b.priority ∧
      (dueBeforeSpec a.dueDate b.dueDate = true ∨
        (a.dueDate = b.dueDate ∧ b.dateCreated ≤ a.dateCreated)))

instance : DecidableRel specClaimedListLE := fun a b => by
  unfold specClaimedListLE
  infer_instance

lemma taskMatch_iff {idAccount idUser idTask : Nat} {t : Task} :
    taskMatch idAccount idUser idTask t = true ↔
      t.idTask = idTask ∧ t.idAccount = idAccount ∧ t.idUser = idUser ∧ t.deleted = false := by
  simp [taskMatch, Bool.and_eq_true, and_assoc]

lemma taskExists_iff {db : DB} {idAccount idUser idTask : Nat} :
    taskExists db idAccount idUser idTask = true ↔
      ∃ t ∈ db.tasks,
        t.idTask = idTask ∧ t.idAccount = idAccount ∧ t.idUser = idUser ∧ t.deleted = false := by
  simp [taskExists, List.any_eq_true, taskMatch_iff]

/-- A row returned by `spTaskGet` is a stored row satisfying the `WHERE`
clause. -/
lemma spTaskGet_ok_mem {db : DB} {idAccount idUser idTask : Nat} {r : Task}
    (h : spTaskGet db idAccount idUser idTask = Except.ok r) :
    r ∈ db.tasks ∧ taskMatch idAccount idUser idTask r = true := by
  unfold spTaskGet at h
  split_ifs at h
  cases hf : db.tasks.find? (taskMatch idAccount idUser idTask) with
  | none => rw [hf] at h; cases h
  | some t =>
    rw [hf] at h
    injection h with h
    subst h
    exact ⟨List.mem_of_find?_eq_some hf, List.find?_some hf⟩

/-! Concrete fixture states used by counterexamples and witnesses. -/

/-- A pending task of account 1, user 1, with no due date. -/
def tPending : Task :=
  { idTask := 1
    idAccount := 1
    idUser := 1
    title := "Pending task"
    description := none
    dueDate := none
    priority := 1
    status := 0
    dateCreated := 100
    dateModified := 100
    deleted := false }

/-- An in-progress task of the same pair, created later. -/
def tInProgress : Task :=
  { tPending with idTask := 2, status := 1, dateCreated := 200, dateModified := 200 }

/-- State with one pending and one in-progress task for `(1, 1)`. -/
def dbStatusMix : DB :=
  { accounts := [1], users := [(1, 1)], tasks := [tPending, tInProgress], nextId := 3 }

/-- A task with no due date. -/
def tNoDue : Task :=
  { idTask := 1
    idAccount := 1
    idUser := 1
    title := "No due date"
    description := none
    dueDate := none
    priority := 2
    status := 0
    dateCreated := 100
    dateModified := 100
    deleted := false }

/-- A task of the same priority with a due date, created later. -/
def tWithDue : Task :=
  { tNoDue with idTask := 2, dueDate := some 20000, dateCreated := 300, dateModified := 300 }

/-- State with a dated and an undated task of equal priority for `(1, 1)`. -/
def dbDueMix : DB :=
  { accounts := [1], users := [(1, 1)], tasks := [tWithDue, tNoDue], nextId := 3 }

/-! Claim theorems. -/

/-- C1: the claim fails in the code. `spTaskList` itself does honour a status
filter of `0`, but the list controller passes `validated.params.status || null`,
and in JavaScript `0 || null` is `null`, so the composed List endpoint treats a
status filter of `0` (and likewise a priority filter of `0`) as absent: with one
Pending and one InProgress task, filtering on status `0` returns both tasks
instead of only the Pending one. -/
theorem c1_status_zero_filter_dropped :
    listTasksEndpoint dbStatusMix (1, 1) (some 0) none =
      Except.ok [tInProgress, tPending] ∧
    spTaskList dbStatusMix 1 1 (some 0) none = Except.ok [tPending] := by
  decide

/-- C2 counterexample: the claim's ordering ("null due dates placed after all
tasks that have a due date") is violated by the code. With two tasks of equal
priority, List returns the task with a `NULL` due date first — T-SQL
`ORDER BY dueDate ASC` sorts `NULL` lowest — and that adjacent pair fails the
claimed nulls-last order. -/
theorem c2_nulls_last_counterexample :
    spTaskList dbDueMix 1 1 none none = Except.ok [tNoDue, tWithDue] ∧
    ¬ specClaimedListLE tNoDue tWithDue := by
  decide

/-- C2 (amended): every successful List result is sorted by priority
descending, then due date ascending with null due dates placed before all
tasks that have a due date, then creation time descending. -/
theorem c2_list_output_sorted (db : DB) (idAccount idUser : Nat)
    (status priority : Option Int) (l : List Task)
    (h : spTaskList db idAccount idUser status priority = Except.ok l) :
    l.Sorted taskLE := by
  unfold spTaskList at h
  split_ifs at h
  injection h with h
  exact h ▸ List.sorted_insertionSort taskLE _

/-- C2 witness: the amended ordering theorem applied to a concrete state. -/
theorem c2_list_output_sorted_witness :
    List.Sorted taskLE [tNoDue, tWithDue] :=
  c2_list_output_sorted dbDueMix 1 1 none none [tNoDue, tWithDue] (by decide)

/-- C4: on every Create or Update input the reported validation error is
exactly the first failing check in the fixed order titleRequired,
titleTooShort (trimmed length < 3), titleTooLong (length > 100),
descriptionTooLong, dueDateInPast, invalidPriority, then — Update only —
invalidStatus; each equivalence shows no later check can surface once an
earlier one fails, and an `Except.error` outcome carries no updated state, so
no persistence mutation occurs. -/
theorem c4_validation_first_failure_wins (db : DB) (now : Nat)
    (idAccount idUser idTask : Nat) (title : String) (description : Option String)
    (dueDate : Option Nat) (priority status : Int) :
    (spTaskUpdate db now idAccount idUser idTask title description dueDate priority status =
        Except.error .titleRequired ↔ trimStr title = "") ∧
    (spTaskUpdate db now idAccount idUser idTask title description dueDate priority status =
        Except.error .titleTooShort ↔
      ¬ trimStr title = "" ∧ (trimStr title).length < 3) ∧
    (spTaskUpdate db now idAccount idUser idTask title description dueDate priority status =
        Except.error .titleTooLong ↔
      ¬ trimStr title = "" ∧ ¬ (trimStr title).length < 3 ∧ title.length > 100) ∧
    (spTaskUpdate db now idAccount idUser idTask title description dueDate priority status =
        Except.error .descriptionTooLong ↔
      ¬ trimStr title = "" ∧ ¬ (trimStr title).length < 3 ∧ ¬ title.length > 100 ∧
        isDescTooLong description = true) ∧
    (spTaskUpdate db now idAccount idUser idTask title description dueDate priority status =
        Except.error .dueDateInPast ↔
      ¬ trimStr title = "" ∧ ¬ (trimStr title).length < 3 ∧ ¬ title.length > 100 ∧
        ¬ isDescTooLong description = true ∧ isPastDue dueDate (utcDate now) = true) ∧
    (spTaskUpdate db now idAccount idUser idTask title description dueDate priority status =
        Except.error .invalidPriority ↔
      ¬ trimStr title = "" ∧ ¬ (trimStr title).length < 3 ∧ ¬ title.length > 100 ∧
        ¬ isDescTooLong description = true ∧ ¬ isPastDue dueDate (utcDate now) = true ∧
        (priority < 0 ∨ 2 < priority)) ∧
    (spTaskUpdate db now idAccount idUser idTask title description dueDate priority status =
        Except.error .invalidStatus ↔
      ¬ trimStr title = "" ∧ ¬ (trimStr title).length < 3 ∧ ¬ title.length > 100 ∧
        ¬ isDescTooLong description = true ∧ ¬ isPastDue dueDate (utcDate now) = true ∧
        ¬ (priority < 0 ∨ 2 < priority) ∧ (status < 0 ∨ 2 < status)) ∧
    (spTaskCreate db now idAccount idUser title description dueDate priority =
        Except.error .titleRequired ↔ trimStr title = "") ∧
    (spTaskCreate db now idAccount idUser title description dueDate priority =
        Except.error .titleTooShort ↔
      ¬ trimStr title = "" ∧ (trimStr title).length < 3) ∧
    (spTaskCreate db now idAccount idUser title description dueDate priority =
        Except.error .titleTooLong ↔
      ¬ trimStr title = "" ∧ ¬ (trimStr title).length < 3 ∧ title.length > 100) ∧
    (spTaskCreate db now idAccount idUser title description dueDate priority =
        Except.error .descriptionTooLong ↔
      ¬ trimStr title = "" ∧ ¬ (trimStr title).length < 3 ∧ ¬ title.length > 100 ∧
        isDescTooLong description = true) ∧
    (spTaskCreate db now idAccount idUser title description dueDate priority =
        Except.error .dueDateInPast ↔
      ¬ trimStr title = "" ∧ ¬ (trimStr title).length < 3 ∧ ¬ title.length > 100 ∧
        ¬ isDescTooLong description = true ∧ isPastDue dueDate (utcDate now) = true) ∧
    (spTaskCreate db now idAccount idUser title description dueDate priority =
        Except.error .invalidPriority ↔
      ¬ trimStr title = "" ∧ ¬ (trimStr title).length < 3 ∧ ¬ title.length > 100 ∧
        ¬ isDescTooLong description = true ∧ ¬ isPastDue dueDate (utcDate now) = true ∧
        (priority < 0 ∨ 2 < priority)) ∧
    spTaskCreate db now idAccount idUser title description dueDate priority ≠
      Except.error .invalidStatus := by
  unfold spTaskUpdate spTaskCreate validateUpdateInput validateCreateInput
  split_ifs <;> simp_all

/-- C4 witness: an Update input violating the title-length, description,
priority and status checks at once reports only `titleTooShort`, the first
failing check. -/
theorem c4_validation_first_failure_wins_witness :
    spTaskUpdate dbStatusMix 0 1 1 1 "ab" (some (String.mk (List.replicate 1001 'x')))
        none 99 99 =
      Except.error .titleTooShort :=
  (c4_validation_first_failure_wins dbStatusMix 0 1 1 1 "ab"
      (some (String.mk (List.replicate 1001 'x'))) none 99 99).2.1.mpr (by decide)

/-- C3: cross-tenant isolation. When the caller's account and user exist but
every stored task with the addressed id belongs to a different
`(idAccount, idUser)` pair, Get, Delete and (for any input passing validation)
Update all fail with `taskDoesntExist`; an `Except.error` result carries
neither task fields nor an updated state, so nothing of the foreign task is
returned and its stored record is untouched. -/
theorem c3_cross_tenant_isolation (db : DB) (now : Nat) (idAccount idUser idTask : Nat)
    (hacc : accountExists db idAccount = true)
    (husr : userExists db idAccount idUser = true)
    (hforeign : ∀ t ∈ db.tasks, t.idTask = idTask →
      ¬ (t.idAccount = idAccount ∧ t.idUser = idUser)) :
    spTaskGet db idAccount idUser idTask = Except.error .taskDoesntExist ∧
    spTaskDelete db now idAccount idUser idTask = Except.error .taskDoesntExist ∧
    (∀ title description dueDate priority status,
      validateUpdateInput title description dueDate priority status (utcDate now) = none →
      spTaskUpdate db now idAccount idUser idTask title description dueDate priority status =
        Except.error .taskDoesntExist) := by
  have hnomatch : ∀ t ∈ db.tasks, ¬ taskMatch idAccount idUser idTask t = true := by
    intro t ht hm
    obtain ⟨h1, h2, h3, _⟩ := taskMatch_iff.mp hm
    exact hforeign t ht h1 ⟨h2, h3⟩
  have hfind : db.tasks.find? (taskMatch idAccount idUser idTask) = none :=
    List.find?_eq_none.mpr hnomatch
  have hex : taskExists db idAccount idUser idTask = false := by
    rw [Bool.eq_false_iff]
    intro hx
    obtain ⟨t, ht, hm⟩ := List.any_eq_true.mp hx
    exact hnomatch t ht hm
  refine ⟨?_, ?_, ?_⟩
  · simp [spTaskGet, hacc, husr, hfind]
  · simp [spTaskDelete, hacc, husr, hex]
  · intro title description dueDate priority status hv
    simp [spTaskUpdate, hv, hex]

/-- A task owned by tenant `(2, 2)`. -/
def tForeign : Task :=
  { idTask := 7
    idAccount := 2
    idUser := 2
    title := "Other tenant task"
    description := none
    dueDate := none
    priority := 1
    status := 0
    dateCreated := 100
    dateModified := 100
    deleted := false }

/-- State with two tenants where task 7 belongs to `(2, 2)`. -/
def dbTwoTenants : DB :=
  { accounts := [1, 2], users := [(1, 1), (2, 2)], tasks := [tForeign], nextId := 8 }

/-- C3 witness: caller `(1, 1)` addressing task 7 of tenant `(2, 2)`. -/
theorem c3_cross_tenant_isolation_witness :
    spTaskGet dbTwoTenants 1 1 7 = Except.error .taskDoesntExist ∧
    spTaskDelete dbTwoTenants 0 1 1 7 = Except.error .taskDoesntExist ∧
    spTaskUpdate dbTwoTenants 0 1 1 7 "New title" none none 1 0 =
      Except.error .taskDoesntExist := by
  obtain ⟨h1, h2, h3⟩ :=
    c3_cross_tenant_isolation dbTwoTenants 0 1 1 7 (by decide) (by decide) (by decide)
  exact ⟨h1, h2, h3 "New title" none none 1 0 (by decide)⟩

/-- Reading back a freshly appended row: when no earlier row matches its key,
`spTaskGet` on the new state returns exactly the appended row. -/
lemma spTaskGet_append_new (db : DB) (idAccount idUser : Nat) (nt : Task)
    (hacc : accountExists db idAccount = true)
    (husr : userExists db idAccount idUser = true)
    (hfind : db.tasks.find? (taskMatch idAccount idUser nt.idTask) = none)
    (hm : taskMatch idAccount idUser nt.idTask nt = true) :
    spTaskGet { db with tasks := db.tasks ++ [nt], nextId := db.nextId + 1 }
      idAccount idUser nt.idTask = Except.ok nt := by
  have ha2 : accountExists { db with tasks := db.tasks ++ [nt], nextId := db.nextId + 1 }
      idAccount = true := hacc
  have hu2 : userExists { db with tasks := db.tasks ++ [nt], nextId := db.nextId + 1 }
      idAccount idUser = true := husr
  simp [spTaskGet, ha2, hu2, List.find?_append, hfind, List.find?_cons, hm]

/-- C5: a valid Create stores a task with status Pending (0), `deleted = false`,
the trimmed title, and equal creation and modification timestamps, and a Get on
the returned id in the new state yields exactly that record. The freshness
hypothesis is the `IDENTITY` invariant: every stored id is below the next id. -/
theorem c5_create_roundtrip (db : DB) (now : Nat) (idAccount idUser : Nat)
    (title : String) (description : Option String) (dueDate : Option Nat) (priority : Int)
    (hval : validateCreateInput title description dueDate priority (utcDate now) = none)
    (hacc : accountExists db idAccount = true)
    (husr : userExists db idAccount idUser = true)
    (hfresh : ∀ t ∈ db.tasks, t.idTask < db.nextId) :
    ∃ db' r,
      spTaskCreate db now idAccount idUser title description dueDate priority =
        Except.ok (db.nextId, db') ∧
      spTaskGet db' idAccount idUser db.nextId = Except.ok r ∧
      r.status = 0 ∧ r.deleted = false ∧ r.title = trimStr title ∧
      r.dateCreated = now ∧ r.dateModified = now ∧ r.description = description ∧
      r.dueDate = dueDate ∧ r.priority = priority := by
  have hold : db.tasks.find? (taskMatch idAccount idUser db.nextId) = none := by
    rw [List.find?_eq_none]
    intro t ht hm
    exact absurd (taskMatch_iff.mp hm).1 (Nat.ne_of_lt (hfresh t ht))
  refine ⟨{ db with
      tasks := db.tasks ++ [newTaskRow db now idAccount idUser title description dueDate priority]
      nextId := db.nextId + 1 },
    newTaskRow db now idAccount idUser title description dueDate priority,
    ?_, ?_, rfl, rfl, rfl, rfl, rfl, rfl, rfl, rfl⟩
  · simp [spTaskCreate, hval, hacc, husr]
  · exact spTaskGet_append_new db idAccount idUser _ hacc husr hold
      (by simp [taskMatch, newTaskRow])

/-- C6: Update performs no tenancy-existence checks — it can never fail with
`accountDoesntExist` or `userDoesntExist`, and once validation passes it fails
with `taskDoesntExist` exactly when no non-deleted task matches all of
`(idTask, idAccount, idUser)` — whereas Create (after validation), Get, List
and Delete all run the tenancy guard, account check before user check. -/
theorem c6_update_skips_tenancy_guard (db : DB) (now : Nat)
    (idAccount idUser idTask : Nat) (title : String) (description : Option String)
    (dueDate : Option Nat) (priority status : Int) (stf prf : Option Int) :
    spTaskUpdate db now idAccount idUser idTask title description dueDate priority status ≠
      Except.error .accountDoesntExist ∧
    spTaskUpdate db now idAccount idUser idTask title description dueDate priority status ≠
      Except.error .userDoesntExist ∧
    (validateUpdateInput title description dueDate priority status (utcDate now) = none →
      (spTaskUpdate db now idAccount idUser idTask title description dueDate priority status =
          Except.error .taskDoesntExist ↔
        ¬ ∃ t ∈ db.tasks,
            t.idTask = idTask ∧ t.idAccount = idAccount ∧ t.idUser = idUser ∧
              t.deleted = false)) ∧
    (accountExists db idAccount = false →
      spTaskGet db idAccount idUser idTask = Except.error .accountDoesntExist ∧
      spTaskList db idAccount idUser stf prf = Except.error .accountDoesntExist ∧
      spTaskDelete db now idAccount idUser idTask = Except.error .accountDoesntExist ∧
      (validateCreateInput title description dueDate priority (utcDate now) = none →
        spTaskCreate db now idAccount idUser title description dueDate priority =
          Except.error .accountDoesntExist)) ∧
    (accountExists db idAccount = true → userExists db idAccount idUser = false →
      spTaskGet db idAccount idUser idTask = Except.error .userDoesntExist ∧
      spTaskList db idAccount idUser stf prf = Except.error .userDoesntExist ∧
      spTaskDelete db now idAccount idUser idTask = Except.error .userDoesntExist ∧
      (validateCreateInput title description dueDate priority (utcDate now) = none →
        spTaskCreate db now idAccount idUser title description dueDate priority =
          Except.error .userDoesntExist)) := by
  have hiff : (taskExists db idAccount idUser idTask = false) =
      ¬ ∃ t ∈ db.tasks,
          t.idTask = idTask ∧ t.idAccount = idAccount ∧ t.idUser = idUser ∧
            t.deleted = false := by
    rw [← taskExists_iff]
    cases taskExists db idAccount idUser idTask <;> simp
  refine ⟨?_, ?_, ?_, ?_, ?_⟩
  · unfold spTaskUpdate validateUpdateInput
    split_ifs <;> simp
  · unfold spTaskUpdate validateUpdateInput
    split_ifs <;> simp
  · intro hv
    rw [← hiff]
    simp only [spTaskUpdate, hv]
    split_ifs with h <;> simp [h]
  · intro ha
    refine ⟨by simp [spTaskGet, ha], by simp [spTaskList, ha], by simp [spTaskDelete, ha], ?_⟩
    intro hv
    simp [spTaskCreate, hv, ha]
  · intro ha hu
    have ha' : (accountExists db idAccount = false) = False := by simp [ha]
    refine ⟨?_, ?_, ?_, ?_⟩
    · simp [spTaskGet, ha', hu]
    · simp [spTaskList, ha', hu]
    · simp [spTaskDelete, ha', hu]
    · intro hv
      simp [spTaskCreate, hv, ha', hu]

/-- C6 witness: Update by a nonexistent tenant reaches the task check and
fails with `taskDoesntExist`, while Get by that tenant fails with
`accountDoesntExist`. -/
theorem c6_update_skips_tenancy_guard_witness :
    spTaskUpdate dbStatusMix 0 5 5 1 "Valid title" none none 1 0 =
      Except.error .taskDoesntExist ∧
    spTaskGet dbStatusMix 5 5 1 = Except.error .accountDoesntExist := by
  obtain ⟨-, -, h3, h4, -⟩ :=
    c6_update_skips_tenancy_guard dbStatusMix 0 5 5 1 "Valid title" none none 1 0 none none
  exact ⟨(h3 (by decide)).mpr (by decide), (h4 (by decide)).1⟩

/-- C5 witness: the round-trip theorem on a concrete create. -/
theorem c5_create_roundtrip_witness :
    ∃ db' r,
      spTaskCreate dbStatusMix 0 1 1 "Buy milk" none none 2 = Except.ok (3, db') ∧
      spTaskGet db' 1 1 3 = Except.ok r ∧
      r.status = 0 ∧ r.deleted = false ∧ r.title = trimStr "Buy milk" ∧
      r.dateCreated = 0 ∧ r.dateModified = 0 ∧ r.description = none ∧
      r.dueDate = none ∧ r.priority = 2 :=
  c5_create_roundtrip dbStatusMix 0 1 1 "Buy milk" none none 2
    (by decide) (by decide) (by decide) (by decide)

/-- C7: Delete is not idempotent. A first Delete on an existing non-deleted
task succeeds returning the task id with the matching row soft-deleted, and a
second Delete — as well as Get, and Update with any input passing
validation — on the same id then fails with `taskDoesntExist`. -/
theorem c7_delete_not_idempotent (db : DB) (now now2 now3 : Nat)
    (idAccount idUser idTask : Nat)
    (hacc : accountExists db idAccount = true)
    (husr : userExists db idAccount idUser = true)
    (hex : taskExists db idAccount idUser idTask = true) :
    spTaskDelete db now idAccount idUser idTask =
      Except.ok (idTask, markDeleted db now idAccount idUser idTask) ∧
    (∀ t ∈ (markDeleted db now idAccount idUser idTask).tasks,
      t.idTask = idTask → t.idAccount = idAccount → t.idUser = idUser →
        t.deleted = true) ∧
    spTaskDelete (markDeleted db now idAccount idUser idTask) now2 idAccount idUser idTask =
      Except.error .taskDoesntExist ∧
    spTaskGet (markDeleted db now idAccount idUser idTask) idAccount idUser idTask =
      Except.error .taskDoesntExist ∧
    (∀ title description dueDate priority status,
      validateUpdateInput title description dueDate priority status (utcDate now3) = none →
      spTaskUpdate (markDeleted db now idAccount idUser idTask) now3 idAccount idUser idTask
          title description dueDate priority status =
        Except.error .taskDoesntExist) := by
  have hmark : ∀ t ∈ (markDeleted db now idAccount idUser idTask).tasks,
      ¬ taskMatch idAccount idUser idTask t = true := by
    intro t ht hm
    obtain ⟨t0, _, rfl⟩ := List.mem_map.mp ht
    by_cases h0 : taskMatch idAccount idUser idTask t0 = true
    · rw [if_pos h0] at hm
      have hdel := (taskMatch_iff.mp hm).2.2.2
      simp at hdel
    · rw [if_neg h0] at hm
      exact h0 hm
  have hdead : taskExists (markDeleted db now idAccount idUser idTask)
      idAccount idUser idTask = false := by
    rw [Bool.eq_false_iff]
    intro hx
    obtain ⟨t, ht, hm⟩ := List.any_eq_true.mp hx
    exact hmark t ht hm
  have hfind2 : (markDeleted db now idAccount idUser idTask).tasks.find?
      (taskMatch idAccount idUser idTask) = none :=
    List.find?_eq_none.mpr hmark
  have hacc2 : accountExists (markDeleted db now idAccount idUser idTask) idAccount = true :=
    hacc
  have husr2 : userExists (markDeleted db now idAccount idUser idTask) idAccount idUser = true :=
    husr
  refine ⟨by simp [spTaskDelete, hacc, husr, hex], ?_, ?_, ?_, ?_⟩
  · intro t ht
    obtain ⟨t0, _, rfl⟩ := List.mem_map.mp ht
    by_cases h0 : taskMatch idAccount idUser idTask t0 = true
    · simp [h0]
    · rw [if_neg h0]
      intro h1 h2 h3
      cases hb : t0.deleted
      · exact absurd (taskMatch_iff.mpr ⟨h1, h2, h3, hb⟩) h0
      · rfl
  · simp [spTaskDelete, hacc2, husr2, hdead]
  · simp [spTaskGet, hacc2, husr2, hfind2]
  · intro title description dueDate priority status hv
    simp [spTaskUpdate, hv, hdead]

/-- C7 witness: deleting task 1 of `(1, 1)` twice on a concrete state. -/
theorem c7_delete_not_idempotent_witness :
    spTaskDelete dbStatusMix 50 1 1 1 =
      Except.ok (1, markDeleted dbStatusMix 50 1 1 1) ∧
    spTaskDelete (markDeleted dbStatusMix 50 1 1 1) 60 1 1 1 =
      Except.error .taskDoesntExist ∧
    spTaskGet (markDeleted dbStatusMix 50 1 1 1) 1 1 1 =
      Except.error .taskDoesntExist ∧
    spTaskUpdate (markDeleted dbStatusMix 50 1 1 1) 70 1 1 1 "New title" none none 1 0 =
      Except.error .taskDoesntExist := by
  obtain ⟨h1, -, h3, h4, h5⟩ :=
    c7_delete_not_idempotent dbStatusMix 50 60 70 1 1 1 (by decide) (by decide) (by decide)
  exact ⟨h1, h3, h4, h5 "New title" none none 1 0 (by decide)⟩

/-- C8: with the earlier validation checks passing, a due date strictly
earlier than the current UTC calendar date makes Create and Update fail with
`dueDateInPast`, while a due date equal to today, later than today, or absent
can never produce that error. -/
theorem c8_due_date_in_past_boundary (db : DB) (now : Nat) (idAccount idUser idTask : Nat)
    (title : String) (description : Option String) (priority status : Int) :
    (∀ d : Nat, ¬ trimStr title = "" → ¬ (trimStr title).length < 3 → ¬ title.length > 100 →
      isDescTooLong description = false → d < utcDate now →
      spTaskCreate db now idAccount idUser title description (some d) priority =
        Except.error .dueDateInPast ∧
      spTaskUpdate db now idAccount idUser idTask title description (some d) priority status =
        Except.error .dueDateInPast) ∧
    (∀ due : Option Nat, (∀ d, due = some d → utcDate now ≤ d) →
      spTaskCreate db now idAccount idUser title description due priority ≠
        Except.error .dueDateInPast ∧
      spTaskUpdate db now idAccount idUser idTask title description due priority status ≠
        Except.error .dueDateInPast) := by
  refine ⟨?_, ?_⟩
  · intro d h1 h2 h3 h4 h5
    have hp : isPastDue (some d) (utcDate now) = true := by simp [isPastDue, h5]
    have hvc : validateCreateInput title description (some d) priority (utcDate now) =
        some .dueDateInPast := by
      unfold validateCreateInput
      rw [if_neg h1, if_neg h2, if_neg h3, if_neg (by simp [h4]), if_pos (by simp [hp])]
    have hvu : validateUpdateInput title description (some d) priority status (utcDate now) =
        some .dueDateInPast := by
      unfold validateUpdateInput
      rw [if_neg h1, if_neg h2, if_neg h3, if_neg (by simp [h4]), if_pos (by simp [hp])]
    exact ⟨by simp [spTaskCreate, hvc], by simp [spTaskUpdate, hvu]⟩
  · intro due hdue
    have hp : isPastDue due (utcDate now) = false := by
      cases due with
      | none => rfl
      | some d =>
        have := hdue d rfl
        simp [isPastDue]
        omega
    constructor
    · unfold spTaskCreate validateCreateInput
      split_ifs <;> simp_all
    · unfold spTaskUpdate validateUpdateInput
      split_ifs <;> simp_all

/-- C8 witness: day 20099 is in the past and day 20100 is today at timestamp
`86400 * 20100`. -/
theorem c8_due_date_in_past_boundary_witness :
    spTaskCreate dbStatusMix (86400 * 20100) 1 1 "Valid title" none (some 20099) 1 =
      Except.error .dueDateInPast ∧
    spTaskUpdate dbStatusMix (86400 * 20100) 1 1 1 "Valid title" none (some 20100) 1 0 ≠
      Except.error .dueDateInPast := by
  obtain ⟨h1, h2⟩ :=
    c8_due_date_in_past_boundary dbStatusMix (86400 * 20100) 1 1 1 "Valid title" none 1 0
  refine ⟨(h1 20099 (by decide) (by decide) (by decide) (by decide) (by decide)).1, ?_⟩
  refine (h2 (some 20100) ?_).2
  intro d hd
  cases hd
  decide

/-- C9: a successful Update keeps the store's shape and every row's identity:
accounts, users, next id and row count are unchanged, and each row keeps its
`idTask`, `idAccount`, `idUser` and `dateCreated`; a row is either untouched
or rewritten by `applyUpdate`, which only changes title, description, dueDate,
priority, status and dateModified. -/
theorem c9_update_frame (db : DB) (now : Nat) (idAccount idUser idTask : Nat)
    (title : String) (description : Option String) (dueDate : Option Nat)
    (priority status : Int) (rid : Nat) (db' : DB)
    (h : spTaskUpdate db now idAccount idUser idTask title description dueDate priority status =
      Except.ok (rid, db')) :
    rid = idTask ∧ db'.accounts = db.accounts ∧ db'.users = db.users ∧
    db'.nextId = db.nextId ∧ db'.tasks.length = db.tasks.length ∧
    ∀ i (hi : i < db.tasks.length) (hi' : i < db'.tasks.length),
      (db'.tasks.get ⟨i, hi'⟩).idTask = (db.tasks.get ⟨i, hi⟩).idTask ∧
      (db'.tasks.get ⟨i, hi'⟩).idAccount = (db.tasks.get ⟨i, hi⟩).idAccount ∧
      (db'.tasks.get ⟨i, hi'⟩).idUser = (db.tasks.get ⟨i, hi⟩).idUser ∧
      (db'.tasks.get ⟨i, hi'⟩).dateCreated = (db.tasks.get ⟨i, hi⟩).dateCreated ∧
      (db'.tasks.get ⟨i, hi'⟩ = db.tasks.get ⟨i, hi⟩ ∨
        db'.tasks.get ⟨i, hi'⟩ =
          applyUpdate now title description dueDate priority status
            (db.tasks.get ⟨i, hi⟩)) := by
  unfold spTaskUpdate at h
  cases hv : validateUpdateInput title description dueDate priority status (utcDate now) with
  | some e => rw [hv] at h; cases h
  | none =>
    rw [hv] at h
    split_ifs at h
    injection h with h
    obtain ⟨h1, h2⟩ := Prod.mk.injEq .. |>.mp h
    cases h2
    refine ⟨h1.symm, rfl, rfl, rfl, by simp, ?_⟩
    intro i hi hi'
    have hg : ({ db with
        tasks := db.tasks.map fun t =>
          if taskMatch idAccount idUser idTask t then
            applyUpdate now title description dueDate priority status t
          else t } : DB).tasks.get ⟨i, hi'⟩ =
        (fun t => if taskMatch idAccount idUser idTask t then
          applyUpdate now title description dueDate priority status t
        else t) (db.tasks.get ⟨i, hi⟩) := by
      simp
    by_cases hm : taskMatch idAccount idUser idTask db.tasks[i] = true
    · exact ⟨by simp [hg, hm, applyUpdate], by simp [hg, hm, applyUpdate],
        by simp [hg, hm, applyUpdate], by simp [hg, hm, applyUpdate],
        Or.inr (by simp [hg, hm])⟩
    · exact ⟨by simp [hg, hm], by simp [hg, hm], by simp [hg, hm], by simp [hg, hm],
        Or.inl (by simp [hg, hm])⟩

/-- The task of `dbStatusMix` with id 1 after a concrete update. -/
def tPendingUpdated : Task :=
  { idTask := 1
    idAccount := 1
    idUser := 1
    title := "Updated title"
    description := none
    dueDate := none
    priority := 2
    status := 1
    dateCreated := 100
    dateModified := 500
    deleted := false }

/-- `dbStatusMix` after the concrete update of task 1. -/
def dbAfterUpdate : DB :=
  { accounts := [1], users := [(1, 1)], tasks := [tPendingUpdated, tInProgress], nextId := 3 }

/-- C9 witness: the frame theorem on a concrete successful update. -/
theorem c9_update_frame_witness :
    dbAfterUpdate.nextId = dbStatusMix.nextId ∧
    dbAfterUpdate.tasks.length = dbStatusMix.tasks.length := by
  obtain ⟨-, -, -, h4, h5, -⟩ :=
    c9_update_frame dbStatusMix 500 1 1 1 "Updated title" none none 2 1 1 dbAfterUpdate
      (by decide)
  exact ⟨h4, h5⟩

/-- C10: both the create controller and the update controller coerce an
empty-string description to null before calling the service — the endpoint
call with description `""` is literally the call with no description — so a
task created or updated through them with an empty-string description is
stored and read back with a null description. -/
theorem c10_empty_description_to_null (db : DB) (now : Nat) (cred : Nat × Nat)
    (idTask : Nat) (title : String) (dueDate : Option Nat) (priority status : Int) :
    createTaskEndpoint db now cred title (some "") dueDate priority =
      createTaskEndpoint db now cred title none dueDate priority ∧
    updateTaskEndpoint db now cred idTask title (some "") dueDate priority status =
      updateTaskEndpoint db now cred idTask title none dueDate priority status ∧
    ((∀ t ∈ db.tasks, t.idTask < db.nextId) →
      ∀ id db' r,
        createTaskEndpoint db now cred title (some "") dueDate priority =
          Except.ok (id, db') →
        spTaskGet db' cred.1 cred.2 id = Except.ok r →
        r.description = none) ∧
    (∀ rid db' r,
      updateTaskEndpoint db now cred idTask title (some "") dueDate priority status =
        Except.ok (rid, db') →
      spTaskGet db' cred.1 cred.2 idTask = Except.ok r →
      r.description = none) := by
  refine ⟨rfl, rfl, ?_, ?_⟩
  · intro hfresh id db' r h hg
    simp only [createTaskEndpoint, jsFalsyStrToNull] at h
    rw [if_pos trivial] at h
    unfold spTaskCreate at h
    cases hv : validateCreateInput title none dueDate priority (utcDate now) with
    | some e => rw [hv] at h; cases h
    | none =>
      rw [hv] at h
      split_ifs at h with ha hu
      injection h with h
      obtain ⟨h1, h2⟩ := Prod.mk.injEq .. |>.mp h
      cases h2
      cases h1
      have hold : db.tasks.find? (taskMatch cred.1 cred.2 db.nextId) = none := by
        rw [List.find?_eq_none]
        intro t ht hm
        exact absurd (taskMatch_iff.mp hm).1 (Nat.ne_of_lt (hfresh t ht))
      have hgn := spTaskGet_append_new db cred.1 cred.2
        (newTaskRow db now cred.1 cred.2 title none dueDate priority)
        (by simpa using ha) (by simpa using hu) hold (by simp [taskMatch, newTaskRow])
      rw [show (newTaskRow db now cred.1 cred.2 title none dueDate priority).idTask = db.nextId
        from rfl] at hgn
      rw [hgn] at hg
      injection hg with hg
      rw [← hg]
      rfl
  · intro rid db' r h hg
    simp only [updateTaskEndpoint, jsFalsyStrToNull] at h
    rw [if_pos trivial] at h
    unfold spTaskUpdate at h
    cases hv : validateUpdateInput title none dueDate priority status (utcDate now) with
    | some e => rw [hv] at h; cases h
    | none =>
      rw [hv] at h
      split_ifs at h
      injection h with h
      obtain ⟨h1, h2⟩ := Prod.mk.injEq .. |>.mp h
      cases h2
      obtain ⟨hmem, hp⟩ := spTaskGet_ok_mem hg
      obtain ⟨t0, ht0, rfl⟩ := List.mem_map.mp hmem
      by_cases hm0 : taskMatch cred.1 cred.2 idTask t0 = true
      · simp [hm0, applyUpdate]
      · simp [hm0] at hp

/-- The task created through the endpoint with an empty-string description. -/
def tBuyMilk : Task :=
  { idTask := 3
    idAccount := 1
    idUser := 1
    title := "Buy milk"
    description := none
    dueDate := none
    priority := 1
    status := 0
    dateCreated := 0
    dateModified := 0
    deleted := false }

/-- `dbStatusMix` after that create. -/
def dbAfterCreate : DB :=
  { accounts := [1], users := [(1, 1)], tasks := [tPending, tInProgress, tBuyMilk], nextId := 4 }

/-- C10 witness: the coercion theorem applied to a concrete create and a
concrete update, both with an empty-string description. -/
theorem c10_empty_description_to_null_witness :
    tBuyMilk.description = none ∧ tPendingUpdated.description = none :=
  ⟨(c10_empty_description_to_null dbStatusMix 0 (1, 1) 1 "Buy milk" none 1 0).2.2.1
      (by decide) 3 dbAfterCreate tBuyMilk (by decide) (by decide),
    (c10_empty_description_to_null dbStatusMix 500 (1, 1) 1 "Updated title" none 2 1).2.2.2
      1 dbAfterUpdate tPendingUpdated (by decide) (by decide)⟩

end TaskMgmt
